import Mathlib

/-!
Verification of the Effect Orchestration Engine of better-lyrics/shaders.

This file gives a shallow embedding, in Lean 4, of the claim-relevant parts of
the repository's TypeScript sources:

  * `src/shared/constants/gradientSettings.ts` — the settings snapshot type,
  * `src/contents/lib/colorExtraction.ts`      — `boostDullColorSaturation`,
  * `src/contents/lib/audioAnalysis.ts`        — the per-tick beat analysis of
    `analyzeAudioFrame`,
  * `src/contents/lib/storage.ts`              — the album-memory store
    (`generateAlbumKey`, `loadAlbumSettings`, `evictOldestAlbums`,
    `saveAlbumColors`, `clearAllAlbumSettings`),
  * `src/contents/lib/gradientController.ts`   — `debouncedSaveAlbumColors`,
    the saved-colors conflict policy of `extractAndUpdateColors`, and the
    reconciliation branches of `updateGradientSettings`,
  * `src/contents/lib/shaderManager.ts` and the kawarp manager module —
    `createShader` / `createKawarp` / `destroyShader` / `destroyKawarp` and
    their `waitForTargetReady` helpers.

JavaScript numbers are modelled as `ℚ` (all the arithmetic the claims touch is
exact decimal arithmetic; `Math.round` is Lean's `round`, which agrees with the
JS semantics of rounding half toward +∞ on the values in range here).
Timestamps (`Date.now()`) are modelled as `ℕ` values passed in explicitly.
DOM state and asynchronous suspension are modelled by explicit environment
parameters: a readiness trace `ℕ → Bool` for the polling wait of the mesh
shader manager, booleans for the one-shot observations of the kawarp wait, and
fuel for loops whose termination is in question.  Rendering handles are
modelled by an arena (`Registry`): an allocation log, a disposal log and the
per-location mount table, so that "number of live handles" is a real quantity
rather than a structural triviality.
-/

/-- `ShaderType` from `gradientSettings.ts`: `"mesh" | "kawarp"`. -/
inductive ShaderType where
  | mesh
  | kawarp
deriving DecidableEq, Repr

/-- The claim-relevant fields of `GradientSettings`
(`src/shared/constants/gradientSettings.ts`).  The purely visual mesh/kawarp
knobs (distortion, swirl, …) are omitted: no claim in this development reads
them. -/
structure GradientSettings where
  enabled : Bool
  shaderType : ShaderType
  audioResponsive : Bool
  audioSpeedMultiplier : ℚ
  audioScaleBoost : ℚ
  audioBeatThreshold : ℚ
  showLogs : Bool
  boostDullColors : Bool
  showOnBrowsePages : Bool
  rememberAlbumSettings : Bool
  vibrantSaturationThreshold : ℚ
  vibrantRatioThreshold : ℚ
  boostIntensity : ℚ
deriving DecidableEq, Repr

/-- `DEFAULT_GRADIENT_SETTINGS` (claim-relevant fields). -/
def DEFAULT_GRADIENT_SETTINGS : GradientSettings where
  enabled := true
  shaderType := ShaderType.kawarp
  audioResponsive := true
  audioSpeedMultiplier := 4
  audioScaleBoost := 1
  audioBeatThreshold := 0.105
  showLogs := false
  boostDullColors := true
  showOnBrowsePages := false
  rememberAlbumSettings := false
  vibrantSaturationThreshold := 30
  vibrantRatioThreshold := 50
  boostIntensity := 50

/-- `DynamicMultipliers` from `gradientSettings.ts`. -/
structure DynamicMultipliers where
  speedMultiplier : ℚ
  scaleMultiplier : ℚ
deriving DecidableEq, Repr

namespace ColorExtraction

/-- An HSL color object as produced by `rgbToHsl` in `colorExtraction.ts`. -/
structure HSL where
  hue : ℚ
  saturation : ℚ
  lightness : ℚ
deriving DecidableEq, Repr

/-- `boostDullColorSaturation` (`colorExtraction.ts`, lines 52–96), translated
clause by clause from the source. -/
def boostDullColorSaturation (hslColors : List HSL) (settings : GradientSettings) :
    List HSL :=
  let vibrantThreshold := settings.vibrantSaturationThreshold
  let ratioThreshold := settings.vibrantRatioThreshold / 100
  let intensity := settings.boostIntensity / 100
  let vibrantColors := (hslColors.filter (fun c => c.saturation ≥ vibrantThreshold)).length
  let vibrantRatio := (vibrantColors : ℚ) / (hslColors.length : ℚ)
  if vibrantRatio > ratioThreshold then
    hslColors
  else
    let nonGrayscaleColors := hslColors.filter (fun c => c.saturation > 5)
    let avgHue : ℚ :=
      if nonGrayscaleColors.length > 0 then
        ((nonGrayscaleColors.map HSL.hue).sum) / (nonGrayscaleColors.length : ℚ)
      else 0
    let dullThreshold : ℚ := 40
    let multiplier := 1 + intensity * 0.5
    let addition := intensity * 0.4
    let cap : ℚ := 70
    hslColors.map (fun color =>
      if color.saturation < dullThreshold then
        let targetHue := if color.saturation < 5 then avgHue else color.hue
        let boostedSaturation := min (color.saturation * multiplier + addition) cap
        { hue := targetHue, saturation := (round boostedSaturation : ℤ),
          lightness := color.lightness }
      else color)

/-- The boost transform exactly as the claim words it: no rounding of the
boosted saturation, and re-hue applied at saturation ≤ 5 (the source applies
`Math.round` and re-hues only at saturation < 5).  Used solely to exhibit the
divergence between the claim and the code. -/
def boostDullColorSaturationClaimed (hslColors : List HSL) (settings : GradientSettings) :
    List HSL :=
  let vibrantThreshold := settings.vibrantSaturationThreshold
  let ratioThreshold := settings.vibrantRatioThreshold / 100
  let intensity := settings.boostIntensity / 100
  let vibrantColors := (hslColors.filter (fun c => c.saturation ≥ vibrantThreshold)).length
  let vibrantRatio := (vibrantColors : ℚ) / (hslColors.length : ℚ)
  if vibrantRatio > ratioThreshold then
    hslColors
  else
    let nonGrayscaleColors := hslColors.filter (fun c => c.saturation > 5)
    let avgHue : ℚ :=
      if nonGrayscaleColors.length > 0 then
        ((nonGrayscaleColors.map HSL.hue).sum) / (nonGrayscaleColors.length : ℚ)
      else 0
    hslColors.map (fun color =>
      if color.saturation < 40 then
        let targetHue := if color.saturation ≤ 5 then avgHue else color.hue
        { hue := targetHue,
          saturation := min (color.saturation * (1 + intensity * 0.5) + intensity * 0.4) 70,
          lightness := color.lightness }
      else color)

/-- The fraction of colors whose saturation is at least the vibrant threshold
(the quantity the source compares against the ratio threshold). -/
def vibrantRatioOf (hslColors : List HSL) (settings : GradientSettings) : ℚ :=
  ((hslColors.filter
      (fun c => c.saturation ≥ settings.vibrantSaturationThreshold)).length : ℚ) /
    (hslColors.length : ℚ)

/-- Average hue of the colors with saturation strictly above 5, or 0 if there
are none. -/
def avgHueOf (hslColors : List HSL) : ℚ :=
  let nonGrayscaleColors := hslColors.filter (fun c => c.saturation > 5)
  if nonGrayscaleColors.length > 0 then
    ((nonGrayscaleColors.map HSL.hue).sum) / (nonGrayscaleColors.length : ℚ)
  else 0

end ColorExtraction

namespace AudioAnalysis

/-- `ANALYSIS_INTERVAL` is the 100 ms tick; it gates when a tick runs and does
not affect the per-tick computation modelled here. -/
def MIN_VOLUME_FOR_ANALYSIS : ℚ := 0.01

/-- `const volumeMultiplier = currentVolume > MIN_VOLUME_FOR_ANALYSIS ? 1 / currentVolume : 1`
(`audioAnalysis.ts`, line 139). -/
def volumeMultiplierOf (currentVolume : ℚ) : ℚ :=
  if currentVolume > MIN_VOLUME_FOR_ANALYSIS then 1 / currentVolume else 1

/-- Normalized amplitude of one byte of the time-domain buffer:
`Math.abs(dataArray[i] - 128) / 128 * volumeMultiplier`. -/
def sampleAmplitude (volumeMultiplier : ℚ) (b : ℕ) : ℚ :=
  (((b : ℤ) - 128).natAbs : ℚ) / 128 * volumeMultiplier

/-- The peak-scanning loop of `analyzeAudioFrame` (`audioAnalysis.ts`,
lines 145–152), including the early `break` once the running peak exceeds the
threshold. -/
def peakScan (threshold volumeMultiplier : ℚ) : List ℕ → ℚ → ℚ
  | [], peak => peak
  | b :: rest, peak =>
    let amplitude := sampleAmplitude volumeMultiplier b
    if amplitude > peak then
      if amplitude > threshold then amplitude
      else peakScan threshold volumeMultiplier rest amplitude
    else peakScan threshold volumeMultiplier rest peak

/-- The maximum normalized amplitude over the whole buffer (no early exit);
the reference quantity "computed peak amplitude" of the claim. -/
def peakAmplitude (volumeMultiplier : ℚ) (dataArray : List ℕ) : ℚ :=
  dataArray.foldl (fun peak b => max peak (sampleAmplitude volumeMultiplier b)) 0

/-- One analysis tick of `analyzeAudioFrame` (`audioAnalysis.ts`,
lines 135–164): classifies the buffer and produces the emitted
`DynamicMultipliers`.  Returns (multipliers, isBeat). -/
def analyzeAudioFrameTick (settings : GradientSettings) (dataArray : List ℕ)
    (currentVolume : ℚ) : DynamicMultipliers × Bool :=
  let volumeMultiplier := volumeMultiplierOf currentVolume
  let threshold := settings.audioBeatThreshold
  let peak := peakScan threshold volumeMultiplier dataArray 0
  let isBeat : Bool := decide (peak > threshold)
  let scaleBoost := settings.audioScaleBoost
  (⟨if settings.audioResponsive && isBeat then settings.audioSpeedMultiplier else 1,
    if settings.audioResponsive && isBeat then 1 + scaleBoost / 100 else 1⟩,
   isBeat)

end AudioAnalysis

namespace Storage

/-- `AlbumData` (`storage.ts`, lines 40–44).  The optional fields
`colorsManuallyModified?` and `lastAccessed?` are modelled as total (`false`
resp. `0` stand for `undefined`, matching the `|| false` / `|| 0` reads in the
source). -/
structure AlbumData where
  colors : List String
  colorsManuallyModified : Bool
  lastAccessed : ℕ
deriving DecidableEq, Repr

/-- The `AlbumSettings` record object, `{ [albumArtUrl: string]: AlbumData }`:
an insertion-ordered key/value list, keys unique. -/
abbrev AlbumSettings := List (String × AlbumData)

def MAX_STORED_ALBUMS : ℕ := 50

/-- `generateAlbumKey`: `albumArtUrl.split("?")[0]`, i.e. the prefix of the
URL up to (excluding) the first `'?'` — the whole URL when it has none. -/
def generateAlbumKey (albumArtUrl : String) : String :=
  String.mk (albumArtUrl.toList.takeWhile (fun c => c ≠ '?'))

/-- First-match key lookup in the record object. -/
def lookupKey (m : AlbumSettings) (k : String) : Option AlbumData :=
  match m with
  | [] => none
  | e :: rest => if e.1 = k then some e.2 else lookupKey rest k

/-- JS object assignment `m[k] = v`: replaces the value in place when the key
exists (keeping its insertion-order position), appends otherwise. -/
def setEntry (m : AlbumSettings) (k : String) (v : AlbumData) : AlbumSettings :=
  if (lookupKey m k).isSome then
    m.map (fun e => if e.1 = k then (k, v) else e)
  else
    m ++ [(k, v)]

/-- Comparison used by `entries.sort((a, b) => (a[1].lastAccessed || 0) - (b[1].lastAccessed || 0))`. -/
def accessLE (a b : String × AlbumData) : Prop :=
  a.2.lastAccessed ≤ b.2.lastAccessed

instance : DecidableRel accessLE := fun a b => Nat.decLe a.2.lastAccessed b.2.lastAccessed

instance : IsTotal (String × AlbumData) accessLE :=
  ⟨fun a b => Nat.le_total a.2.lastAccessed b.2.lastAccessed⟩

instance : IsTrans (String × AlbumData) accessLE :=
  ⟨fun _ _ _ hab hbc => Nat.le_trans hab hbc⟩

/-- `evictOldestAlbums` (`storage.ts`, lines 111–121): if the store holds more
than `MAX_STORED_ALBUMS` records, sort ascending by `lastAccessed` (a stable
sort, like the JS array sort) and keep the last `MAX_STORED_ALBUMS`. -/
def evictOldestAlbums (albumSettings : AlbumSettings) : AlbumSettings :=
  if albumSettings.length ≤ MAX_STORED_ALBUMS then
    albumSettings
  else
    let sorted := List.insertionSort accessLE albumSettings
    sorted.drop (sorted.length - MAX_STORED_ALBUMS)

/-- `saveAlbumColors` (`storage.ts`, lines 123–147).  `now` is `Date.now()`;
`store` is the current persisted `AlbumSettings` map (`[]` when the key was
never set).  Returns the store after the `albumStorage.set`. -/
def saveAlbumColors (now : ℕ) (store : AlbumSettings) (albumArtUrl : String)
    (colors : List String) (colorsManuallyModified : Bool) : AlbumSettings :=
  let albumKey := generateAlbumKey albumArtUrl
  let existingData := lookupKey store albumKey
  let wasManuallyModified :=
    colorsManuallyModified || ((existingData.map AlbumData.colorsManuallyModified).getD false)
  let updated := setEntry store albumKey
    { colors := colors, colorsManuallyModified := wasManuallyModified, lastAccessed := now }
  evictOldestAlbums updated

/-- `loadAlbumSettings` (`storage.ts`, lines 88–109).  The outer `Option`
models `albumStorage.get` returning `undefined` when nothing was ever stored.
Returns (the value returned to the caller, the store after the write-back). -/
def loadAlbumSettings (now : ℕ) (store : Option AlbumSettings) (albumArtUrl : String) :
    Option AlbumData × Option AlbumSettings :=
  match store with
  | none => (none, none)
  | some allAlbumSettings =>
    let albumKey := generateAlbumKey albumArtUrl
    match lookupKey allAlbumSettings albumKey with
    | none => (none, some allAlbumSettings)
    | some albumData =>
      let touched := { albumData with lastAccessed := now }
      (some touched, some (setEntry allAlbumSettings albumKey touched))

/-- `clearAllAlbumSettings` (`storage.ts`, lines 149–155): removes the whole
`AlbumSettings` key from the persistent store. -/
def clearAllAlbumSettings : Option AlbumSettings := none

end Storage

namespace GradientController

/-- The colors-selection logic of `extractAndUpdateColors`
(`gradientController.ts`, lines 175–205): which palette is applied when a
fresh extraction `extracted` and a possibly saved record `saved` both exist.
`skipSavedColors` is the second argument of `extractAndUpdateColors`. -/
def chooseColorsToUse (settings : GradientSettings) (skipSavedColors : Bool)
    (extracted : List String) (saved : Option Storage.AlbumData) : List String :=
  if settings.rememberAlbumSettings && !skipSavedColors then
    match saved with
    | some savedAlbumData =>
      if !savedAlbumData.colors.isEmpty
          && (savedAlbumData.colorsManuallyModified || !settings.boostDullColors) then
        savedAlbumData.colors
      else
        extracted
    | none => extracted
  else
    extracted

/-- State of the debounced album save (`gradientController.ts`, lines 56–74):
`albumSaveDebounceTimer` is the single module-level timer slot (deadline and
the captured arguments of the pending `storage.saveAlbumColors` call);
`savedWrites` records the `storage.saveAlbumColors` invocations that actually
fired, oldest first. -/
structure DebounceState where
  albumSaveDebounceTimer : Option (ℕ × String × List String × Bool)
  savedWrites : List (String × List String × Bool)
deriving DecidableEq, Repr

/-- `debouncedSaveAlbumColors` called at time `now`: any pending timer is
cleared (`clearTimeout`) and a fresh 1000 ms timer capturing the new arguments
replaces it. -/
def debouncedSaveAlbumColors (now : ℕ) (albumUrl : String) (colors : List String)
    (colorsManuallyModified : Bool) (st : DebounceState) : DebounceState :=
  { st with albumSaveDebounceTimer := some (now + 1000, albumUrl, colors, colorsManuallyModified) }

/-- The timer callback: at time `now`, a pending timer whose deadline has been
reached fires, performing the captured `storage.saveAlbumColors` call and
clearing the slot.  A timer whose deadline lies in the future does nothing. -/
def fireDueTimer (now : ℕ) (st : DebounceState) : DebounceState :=
  match st.albumSaveDebounceTimer with
  | some (deadline, albumUrl, colors, colorsManuallyModified) =>
    if deadline ≤ now then
      { albumSaveDebounceTimer := none,
        savedWrites := st.savedWrites ++ [(albumUrl, colors, colorsManuallyModified)] }
    else st
  | none => st

end GradientController

/-- Arena of rendering handles for one manager module (the `shaders` map of
`shaderManager.ts` resp. the `kawarps` map of the kawarp manager module).
`mounts` is the live map `location ↦ handle`; `allocLog` records every handle
ever allocated (`new ShaderMount(...)` / `new Kawarp(...)`) together with its
location; `disposed` records every handle on which `.dispose()` was called.
A handle is live iff it was allocated and not disposed. -/
structure Registry where
  mounts : List (String × ℕ)
  allocLog : List (String × ℕ)
  disposed : List ℕ
  nextId : ℕ
deriving DecidableEq, Repr

namespace Registry

def empty : Registry := ⟨[], [], [], 0⟩

/-- The live (allocated and never disposed) handles recorded for location `k`. -/
def liveFor (r : Registry) (k : String) : List ℕ :=
  (r.allocLog.filter (fun e => decide (e.1 = k ∧ e.2 ∉ r.disposed))).map Prod.snd

/-- First-match lookup in the mount table. -/
def findMount (r : Registry) (k : String) : Option ℕ :=
  match r.mounts.find? (fun e => decide (e.1 = k)) with
  | some e => some e.2
  | none => none

/-- Dispose the mounted handle of `location` (if any) and delete the map
entry: the shared shape of `destroyShader(location)` (`shaderManager.ts`,
lines 227–250) and `destroyKawarp(location)`. -/
def destroyLoc (location : String) (r : Registry) : Registry :=
  match r.findMount location with
  | some h =>
    { r with
      mounts := r.mounts.filter (fun e => decide (e.1 ≠ location)),
      disposed := r.disposed ++ [h] }
  | none =>
    { r with mounts := r.mounts.filter (fun e => decide (e.1 ≠ location)) }

/-- `destroyShader()` / `destroyKawarp()` with no argument: iterate over the
current keys, destroying each (`shaderManager.ts`, lines 251–256). -/
def destroyAll (r : Registry) : Registry :=
  (r.mounts.map Prod.fst).foldl (fun acc loc => destroyLoc loc acc) r

/-- Allocate a fresh handle and mount it at `location` (the
`state.mount = new ShaderMount(...)` / `state.instance = new Kawarp(...)`
step when the captured `state` object is the map's entry; the JS `Map.set`
appends a new key in insertion order). -/
def allocate (location : String) (r : Registry) : Registry :=
  { mounts := r.mounts ++ [(location, r.nextId)],
    allocLog := r.allocLog ++ [(location, r.nextId)],
    disposed := r.disposed,
    nextId := r.nextId + 1 }

/-- Allocate a fresh handle for `location` into a *detached* state object:
on the re-create path, `destroyShader(location)` / `destroyKawarp(location)`
end with `shaders.delete(location)` (`shaderManager.ts`, line 250) resp.
`kawarps.delete(location)`, but the local `state` captured before the destroy
still references the removed object, and the new handle is assigned into it
(`shaderManager.ts`, line 185).  `getShaderState` only ever inserts a *fresh*
empty state, so the object — and the handle living in it — is never
re-inserted into the map: the allocation is recorded, but no mount entry
exists for it. -/
def allocateDetached (location : String) (r : Registry) : Registry :=
  { mounts := r.mounts,
    allocLog := r.allocLog ++ [(location, r.nextId)],
    disposed := r.disposed,
    nextId := r.nextId + 1 }

/-- Well-formedness of a registry reachable by the manager operations:
unique location keys, unique handle ids, ids below the allocation counter
(including disposed ones), every allocated handle either disposed or still
mounted, and every mounted handle allocated and not disposed. -/
def WF (r : Registry) : Prop :=
  (r.mounts.map Prod.fst).Nodup ∧
  (r.allocLog.map Prod.snd).Nodup ∧
  (∀ e ∈ r.allocLog, e.2 < r.nextId) ∧
  (∀ h ∈ r.disposed, h < r.nextId) ∧
  (∀ e ∈ r.allocLog, e.2 ∈ r.disposed ∨ e ∈ r.mounts) ∧
  (∀ e ∈ r.mounts, e ∈ r.allocLog ∧ e.2 ∉ r.disposed)

instance (r : Registry) : Decidable r.WF := by
  unfold WF
  infer_instance

end Registry

namespace ShaderManager

/-- `getLocationFromSelector` (`shaderManager.ts`, lines 72–76). -/
def getLocationFromSelector (targetSelector : String) : String :=
  if targetSelector = "player-page" then "player"
  else if targetSelector = "search-page" then "search"
  else "homepage"

/-- `waitForTargetReady` (`shaderManager.ts`, lines 88–103).  `hasContent i`
tells whether the target element exists and has children at the `i`-th poll
(polls are 500 ms apart); `fuel` bounds how many polls we are willing to
observe.  The promise resolves `true` (after a settle delay) at the first poll
that sees content; there is no timeout path, so `none` (still polling after
`fuel` polls) and `some true` are the only outcomes. -/
def waitForTargetReady (hasContent : ℕ → Bool) : ℕ → ℕ → Option Bool
  | _, 0 => none
  | i, fuel + 1 =>
    if hasContent i then some true
    else waitForTargetReady hasContent (i + 1) fuel

/-- `createShader` (`shaderManager.ts`, lines 105–225) restricted to its
handle bookkeeping.  `hasContent` drives `waitForTargetReady`;
`targetPresent` is whether `getTargetElement` still finds the target after the
wait.  Result: the registry as observable when the call settles (or, when the
wait is still polling, the registry at the suspension point) and
`some success` / `none` for a call that never returns.

The local `const state = getShaderState(location)` is captured at line 114,
*before* the destroy-first call.  When `state.mount` is non-null,
`destroyShader(location)` (line 118) disposes the mount and then deletes the
map entry (`shaders.delete(location)`, line 250), so `state` now references a
detached object; the new `ShaderMount` assigned at line 185 lives in that
detached object and is never re-tracked in the `shaders` map
(`allocateDetached`).  When `state.mount` is null, `state` is the map's entry
(inserted fresh by `getShaderState` if absent) and the new mount is tracked
(`allocate`). -/
def createShader (hasContent : ℕ → Bool) (targetPresent : Bool) (colors : List String)
    (targetSelector : String) (fuel : ℕ) (r : Registry) : Registry × Option Bool :=
  if colors.isEmpty then (r, some false)
  else
    let location := getLocationFromSelector targetSelector
    match r.findMount location with
    | some _ =>
      let r1 := Registry.destroyLoc location r
      match waitForTargetReady hasContent 0 fuel with
      | none => (r1, none)
      | some isReady =>
        if !isReady then (r1, some false)
        else if !targetPresent then (r1, some false)
        else (Registry.allocateDetached location r1, some true)
    | none =>
      match waitForTargetReady hasContent 0 fuel with
      | none => (r, none)
      | some isReady =>
        if !isReady then (r, some false)
        else if !targetPresent then (r, some false)
        else (Registry.allocate location r, some true)

/-- A `createShader` call that never completes: every poll budget leaves it
still waiting. -/
def CreateNeverCompletes (hasContent : ℕ → Bool) (targetPresent : Bool)
    (colors : List String) (targetSelector : String) (r : Registry) : Prop :=
  ∀ fuel, (createShader hasContent targetPresent colors targetSelector fuel r).2 = none

end ShaderManager

namespace KawarpManager

/-- What the kawarp `waitForTargetReady` (kawarp manager module, lines
378–412) observes: whether the target already has content, whether the
`ytmusic-app` element exists for the `MutationObserver`, and whether a
mutation makes the target ready before the 5000 ms timeout fires. -/
structure WaitEnv where
  initialHasContent : Bool
  appElementPresent : Bool
  readyWithinTimeout : Bool
deriving DecidableEq, Repr

/-- The kawarp `waitForTargetReady`: resolves `true` immediately on content,
otherwise observes mutations until the bounded timeout; with no `ytmusic-app`
element it resolves `false` at once.  Total: every call resolves. -/
def waitForTargetReady (e : WaitEnv) : Bool :=
  if e.initialHasContent then true
  else if !e.appElementPresent then false
  else e.readyWithinTimeout

/-- The target eventually reads as ready within the bounded wait. -/
def EventuallyReady (e : WaitEnv) : Prop :=
  e.initialHasContent = true ∨ (e.appElementPresent = true ∧ e.readyWithinTimeout = true)

instance (e : WaitEnv) : Decidable (EventuallyReady e) := by
  unfold EventuallyReady
  infer_instance

/-- `getLocationFromSelector` (kawarp manager module, lines 362–366). -/
def getLocationFromSelector (targetSelector : String) : String :=
  if targetSelector = "player-page" then "player"
  else if targetSelector = "search-page" then "search"
  else "homepage"

/-- `createKawarp` (kawarp manager module, lines 440–609) restricted to its
handle bookkeeping: destroy-before-create, bounded wait, target re-check,
allocation.  Returns the registry and the success flag.

As in `ShaderManager.createShader`, the local `state` is captured at line 446
*before* `destroyKawarp(location)` (line 450) deletes the map entry
(`kawarps.delete(location)`, line 659): on the re-create path the new
`Kawarp` instance (line 545) lives in the detached object and is never
re-tracked (`allocateDetached`); otherwise the entry object is in the map and
the instance is tracked (`allocate`). -/
def createKawarp (wait : WaitEnv) (targetPresent : Bool) (targetSelector : String)
    (r : Registry) : Registry × Bool :=
  let location := getLocationFromSelector targetSelector
  let isReady := waitForTargetReady wait
  match r.findMount location with
  | some _ =>
    let r1 := Registry.destroyLoc location r
    if !isReady then (r1, false)
    else if !targetPresent then (r1, false)
    else (Registry.allocateDetached location r1, true)
  | none =>
    if !isReady then (r, false)
    else if !targetPresent then (r, false)
    else (Registry.allocate location r, true)

end KawarpManager

/-- One manager operation, as sequenced by the single-threaded event loop.
`createShader` carries the DOM observations its run depends on. -/
inductive EffectOp where
  | createShader (hasContent : ℕ → Bool) (targetPresent : Bool) (colors : List String)
      (targetSelector : String) (fuel : ℕ)
  | destroyShader (location : Option String)
  | createKawarp (wait : KawarpManager.WaitEnv) (targetPresent : Bool) (targetSelector : String)
  | destroyKawarp (location : Option String)

/-- The two per-module registries (`shaders` in `shaderManager.ts`,
`kawarps` in the kawarp manager module). -/
structure EffectState where
  shaders : Registry
  kawarps : Registry

def initialEffectState : EffectState := ⟨Registry.empty, Registry.empty⟩

def applyEffectOp (st : EffectState) : EffectOp → EffectState
  | EffectOp.createShader hasContent targetPresent colors targetSelector fuel =>
    { st with
      shaders := (ShaderManager.createShader hasContent targetPresent colors
        targetSelector fuel st.shaders).1 }
  | EffectOp.destroyShader (some location) =>
    { st with shaders := Registry.destroyLoc location st.shaders }
  | EffectOp.destroyShader none =>
    { st with shaders := Registry.destroyAll st.shaders }
  | EffectOp.createKawarp wait targetPresent targetSelector =>
    { st with
      kawarps := (KawarpManager.createKawarp wait targetPresent targetSelector st.kawarps).1 }
  | EffectOp.destroyKawarp (some location) =>
    { st with kawarps := Registry.destroyLoc location st.kawarps }
  | EffectOp.destroyKawarp none =>
    { st with kawarps := Registry.destroyAll st.kawarps }

def runEffectOps (ops : List EffectOp) (st : EffectState) : EffectState :=
  ops.foldl applyEffectOp st

namespace GradientController

/-- The orchestrator's module-level state (`gradientController.ts`):
the current settings snapshot, the two handle registries owned by the manager
modules, and the audio-analysis animation-frame id (`state.rafId`,
`audioAnalysis.ts`; `none` = analysis stopped). -/
structure ControllerState where
  gradientSettings : GradientSettings
  shaders : Registry
  kawarps : Registry
  audioRafId : Option ℕ

/-- The DOM/collaborator-dependent routines invoked by
`updateGradientSettings`, abstracted as opaque state transformers:
`checkAndUpdateGradient` (page scraping + surface population),
`handleAudioResponsiveToggle`, the boost-triggered
`clearColorCache(); extractAndUpdateColors(true, true)`, and the two
`update*Settings` pushes. -/
structure ControllerEnv where
  checkAndUpdateGradient : ControllerState → ControllerState
  handleAudioResponsiveToggle : ControllerState → ControllerState
  reExtractColors : ControllerState → ControllerState
  updateKawarpSettingsEffect : ControllerState → ControllerState
  updateShaderSettingsEffect : ControllerState → ControllerState

/-- `stopAudioAnalysis` (`audioAnalysis.ts`, lines 181–193): cancels the
animation frame, so no further tick fires. -/
def stopAudioAnalysis (st : ControllerState) : ControllerState :=
  { st with audioRafId := none }

/-- `startAudioAnalysis` (`audioAnalysis.ts`, lines 169–179): schedules the
analysis frame. -/
def startAudioAnalysis (st : ControllerState) : ControllerState :=
  { st with audioRafId := some 0 }

/-- `updateGradientSettings` (`gradientController.ts`, lines 341–411),
branch for branch.  `env` supplies the DOM-dependent collaborator routines;
everything on the `enabled` true→false path is concrete. -/
def updateGradientSettings (env : ControllerEnv) (st : ControllerState)
    (settings : GradientSettings) : ControllerState :=
  let wasEnabled := st.gradientSettings.enabled
  let wasShaderType := st.gradientSettings.shaderType
  let wasAudioResponsive := st.gradientSettings.audioResponsive
  let wasShowOnBrowsePages := st.gradientSettings.showOnBrowsePages
  let audioSettingsChanged :=
    st.gradientSettings.audioSpeedMultiplier ≠ settings.audioSpeedMultiplier ∨
    st.gradientSettings.audioScaleBoost ≠ settings.audioScaleBoost ∨
    st.gradientSettings.audioBeatThreshold ≠ settings.audioBeatThreshold
  let boostSettingsChanged :=
    st.gradientSettings.boostDullColors ≠ settings.boostDullColors ∨
    st.gradientSettings.vibrantSaturationThreshold ≠ settings.vibrantSaturationThreshold ∨
    st.gradientSettings.vibrantRatioThreshold ≠ settings.vibrantRatioThreshold ∨
    st.gradientSettings.boostIntensity ≠ settings.boostIntensity
  let shaderTypeChanged := wasShaderType ≠ settings.shaderType
  let st := { st with gradientSettings := settings }
  if wasEnabled ≠ settings.enabled then
    if settings.enabled = false then
      stopAudioAnalysis
        { st with shaders := st.shaders.destroyAll, kawarps := st.kawarps.destroyAll }
    else
      let st := env.checkAndUpdateGradient st
      if settings.audioResponsive then startAudioAnalysis st else st
  else if settings.enabled = false then
    st
  else if shaderTypeChanged then
    let st :=
      if wasShaderType = ShaderType.mesh then { st with shaders := st.shaders.destroyAll }
      else { st with kawarps := st.kawarps.destroyAll }
    env.checkAndUpdateGradient st
  else
    let st :=
      if wasAudioResponsive ≠ settings.audioResponsive ∨ audioSettingsChanged then
        env.handleAudioResponsiveToggle st
      else st
    let st :=
      if wasShowOnBrowsePages ≠ settings.showOnBrowsePages then
        env.checkAndUpdateGradient st
      else st
    let st :=
      if boostSettingsChanged ∧ settings.shaderType = ShaderType.mesh then
        env.reExtractColors st
      else st
    if settings.shaderType = ShaderType.kawarp ∧ st.kawarps.mounts ≠ [] then
      env.updateKawarpSettingsEffect st
    else if settings.shaderType = ShaderType.mesh ∧ st.shaders.mounts ≠ [] then
      env.updateShaderSettingsEffect st
    else st

end GradientController

namespace AudioAnalysis

theorem peakScan_gt_iff (t v : ℚ) (l : List ℕ) (p : ℚ) :
    peakScan t v l p > t ↔ p > t ∨ ∃ b ∈ l, sampleAmplitude v b > t := by
  induction l generalizing p with
  | nil => simp [peakScan]
  | cons b rest ih =>
    simp only [peakScan]
    by_cases h1 : sampleAmplitude v b > p
    · rw [if_pos h1]
      by_cases h2 : sampleAmplitude v b > t
      · rw [if_pos h2]
        simp only [List.mem_cons]
        constructor
        · intro _; exact Or.inr ⟨b, Or.inl rfl, h2⟩
        · intro _; exact h2
      · rw [if_neg h2, ih]
        simp only [List.mem_cons]
        constructor
        · rintro (h | ⟨x, hx, hgt⟩)
          · exact absurd h h2
          · exact Or.inr ⟨x, Or.inr hx, hgt⟩
        · rintro (hp | ⟨x, hx, hgt⟩)
          · exact absurd (lt_trans hp h1) h2
          · rcases hx with rfl | hx
            · exact absurd hgt h2
            · exact Or.inr ⟨x, hx, hgt⟩
    · rw [if_neg h1, ih]
      simp only [List.mem_cons]
      push_neg at h1
      constructor
      · rintro (hp | ⟨x, hx, hgt⟩)
        · exact Or.inl hp
        · exact Or.inr ⟨x, Or.inr hx, hgt⟩
      · rintro (hp | ⟨x, hx, hgt⟩)
        · exact Or.inl hp
        · rcases hx with rfl | hx
          · exact Or.inl (lt_of_lt_of_le hgt h1)
          · exact Or.inr ⟨x, hx, hgt⟩

theorem foldl_max_gt_iff (t v : ℚ) (l : List ℕ) (p : ℚ) :
    l.foldl (fun peak b => max peak (sampleAmplitude v b)) p > t ↔
      p > t ∨ ∃ b ∈ l, sampleAmplitude v b > t := by
  induction l generalizing p with
  | nil => simp
  | cons b rest ih =>
    simp only [List.foldl_cons, ih, lt_max_iff, List.mem_cons]
    constructor
    · rintro ((hp | hb) | ⟨x, hx, hgt⟩)
      · exact Or.inl hp
      · exact Or.inr ⟨b, Or.inl rfl, hb⟩
      · exact Or.inr ⟨x, Or.inr hx, hgt⟩
    · rintro (hp | ⟨x, hx, hgt⟩)
      · exact Or.inl (Or.inl hp)
      · rcases hx with rfl | hx
        · exact Or.inl (Or.inr hgt)
        · exact Or.inr ⟨x, hx, hgt⟩

theorem peakAmplitude_gt_iff (t v : ℚ) (l : List ℕ) :
    peakAmplitude v l > t ↔ (0 : ℚ) > t ∨ ∃ b ∈ l, sampleAmplitude v b > t :=
  foldl_max_gt_iff t v l 0

/-- `if` with a `Bool` conjunction condition, restated with the conjunction as
a proposition. -/
theorem ite_bool_and (a b : Bool) (x y : ℚ) :
    (if a && b then x else y) = if a = true ∧ b = true then x else y := by
  cases a <;> cases b <;> simp

end AudioAnalysis

namespace Storage

theorem lookupKey_replaceMap (m : AlbumSettings) (k : String) (v : AlbumData) :
    lookupKey (m.map (fun e => if e.1 = k then (k, v) else e)) k =
      if (lookupKey m k).isSome then some v else none := by
  induction m with
  | nil => simp [lookupKey]
  | cons e rest ih =>
    by_cases he : e.1 = k
    · simp only [List.map_cons, if_pos he, lookupKey, if_pos rfl, he, Option.isSome_some,
        if_true]
    · simp only [List.map_cons, if_neg he, lookupKey, if_neg he, ih]

theorem lookupKey_append_single (m : AlbumSettings) (k : String) (v : AlbumData)
    (h : lookupKey m k = none) : lookupKey (m ++ [(k, v)]) k = some v := by
  induction m with
  | nil => simp [lookupKey]
  | cons e rest ih =>
    simp only [lookupKey] at h
    by_cases he : e.1 = k
    · rw [if_pos he] at h
      exact absurd h (by simp)
    · rw [if_neg he] at h
      simpa [lookupKey, he] using ih h

theorem lookupKey_setEntry_self (m : AlbumSettings) (k : String) (v : AlbumData) :
    lookupKey (setEntry m k v) k = some v := by
  unfold setEntry
  by_cases h : (lookupKey m k).isSome
  · rw [if_pos h, lookupKey_replaceMap, if_pos h]
  · rw [if_neg h]
    exact lookupKey_append_single m k v (Option.not_isSome_iff_eq_none.mp h)

end Storage

/-- The palette of the claim's own example: 5 colors with saturations
[80, 75, 70, 65, 60]%. -/
def c4VibrantPalette : List ColorExtraction.HSL :=
  [⟨10, 80, 50⟩, ⟨20, 75, 50⟩, ⟨30, 70, 50⟩, ⟨40, 65, 50⟩, ⟨50, 60, 50⟩]

/-- A dull palette on which the claim's exact formula and the code differ. -/
def c4DullPalette : List ColorExtraction.HSL :=
  [⟨0, 5, 50⟩, ⟨100, 10, 50⟩, ⟨200, 30, 50⟩]

/-- C4 counterexample: at `c4DullPalette` with the default boost knobs
(vibrant threshold 30, ratio threshold 50, intensity 50), the code's output
differs from the claim's formula: the code rounds the boosted saturation
(`Math.round`, giving 6 and 13 where the claim's formula gives 6.45 and 12.7)
and re-hues only at saturation < 5 (strict), so the saturation-5 color keeps
hue 0 where the claim's "≤ 5%" wording re-hues it to 150. -/
theorem c4_counterexample :
    ColorExtraction.boostDullColorSaturation c4DullPalette DEFAULT_GRADIENT_SETTINGS ≠
      ColorExtraction.boostDullColorSaturationClaimed c4DullPalette DEFAULT_GRADIENT_SETTINGS := by
  have h1 : ColorExtraction.boostDullColorSaturation c4DullPalette DEFAULT_GRADIENT_SETTINGS =
      [⟨0, 6, 50⟩, ⟨100, 13, 50⟩, ⟨200, 38, 50⟩] := by
    norm_num [ColorExtraction.boostDullColorSaturation, c4DullPalette,
      DEFAULT_GRADIENT_SETTINGS, round_eq, Int.floor_eq_iff]
  have h2 : ColorExtraction.boostDullColorSaturationClaimed c4DullPalette
      DEFAULT_GRADIENT_SETTINGS =
      [⟨150, 6.45, 50⟩, ⟨100, 12.7, 50⟩, ⟨200, 37.7, 50⟩] := by
    norm_num [ColorExtraction.boostDullColorSaturationClaimed, c4DullPalette,
      DEFAULT_GRADIENT_SETTINGS]
  rw [h1, h2]
  simp only [ne_eq, List.cons.injEq, ColorExtraction.HSL.mk.injEq]
  norm_num

/-- C4 as amended: the boost transform is the identity whenever the vibrant
fraction strictly exceeds the ratio threshold (in particular on the claim's
5-color example); otherwise each color with saturation < 40 gets saturation
`Math.round(min(s·(1+i·0.5)+i·0.4, 70))` (note the rounding), colors with
saturation strictly below 5 are re-hued to the average hue of the colors with
saturation strictly above 5, and all other colors pass unchanged. -/
theorem c4_amended_boost (settings : GradientSettings) (hslColors : List ColorExtraction.HSL) :
    (ColorExtraction.vibrantRatioOf hslColors settings >
        settings.vibrantRatioThreshold / 100 →
      ColorExtraction.boostDullColorSaturation hslColors settings = hslColors) ∧
    (¬ ColorExtraction.vibrantRatioOf hslColors settings >
        settings.vibrantRatioThreshold / 100 →
      ColorExtraction.boostDullColorSaturation hslColors settings =
        hslColors.map (fun color =>
          if color.saturation < 40 then
            { hue := if color.saturation < 5 then ColorExtraction.avgHueOf hslColors
                     else color.hue,
              saturation :=
                ((round (min (color.saturation * (1 + settings.boostIntensity / 100 * 0.5) +
                    settings.boostIntensity / 100 * 0.4) 70) : ℤ) : ℚ),
              lightness := color.lightness }
          else color)) := by
  constructor
  · intro h
    simp only [ColorExtraction.vibrantRatioOf] at h
    simp only [ColorExtraction.boostDullColorSaturation]
    rw [if_pos h]
  · intro h
    simp only [ColorExtraction.vibrantRatioOf] at h
    simp only [ColorExtraction.boostDullColorSaturation, ColorExtraction.avgHueOf]
    rw [if_neg h]

/-- Witness for C4: the claim's example — 5 colors with saturations
[80, 75, 70, 65, 60]%, ratio threshold 50%, vibrant threshold 30% — satisfies
the no-op condition, and the output equals the input. -/
theorem c4_witness :
    ColorExtraction.vibrantRatioOf c4VibrantPalette DEFAULT_GRADIENT_SETTINGS >
        DEFAULT_GRADIENT_SETTINGS.vibrantRatioThreshold / 100 ∧
    ColorExtraction.boostDullColorSaturation c4VibrantPalette DEFAULT_GRADIENT_SETTINGS =
      c4VibrantPalette :=
  ⟨by norm_num [ColorExtraction.vibrantRatioOf, c4VibrantPalette, DEFAULT_GRADIENT_SETTINGS],
   (c4_amended_boost DEFAULT_GRADIENT_SETTINGS c4VibrantPalette).1
    (by norm_num [ColorExtraction.vibrantRatioOf, c4VibrantPalette, DEFAULT_GRADIENT_SETTINGS])⟩

/-- C5: on every analysis tick, a peak amplitude exactly at the configured
threshold is not a beat (strict `>`), a peak strictly above it is a beat, and
the emitted multipliers are `audioSpeedMultiplier` resp.
`1 + audioScaleBoost/100` exactly when audio-reactive and beat, else `1`. -/
theorem c5_beat_classification (settings : GradientSettings) (dataArray : List ℕ)
    (currentVolume : ℚ) :
    (AudioAnalysis.peakAmplitude (AudioAnalysis.volumeMultiplierOf currentVolume) dataArray =
        settings.audioBeatThreshold →
      (AudioAnalysis.analyzeAudioFrameTick settings dataArray currentVolume).2 = false) ∧
    (AudioAnalysis.peakAmplitude (AudioAnalysis.volumeMultiplierOf currentVolume) dataArray >
        settings.audioBeatThreshold →
      (AudioAnalysis.analyzeAudioFrameTick settings dataArray currentVolume).2 = true) ∧
    (AudioAnalysis.analyzeAudioFrameTick settings dataArray currentVolume).1.speedMultiplier =
      (if settings.audioResponsive = true ∧
          (AudioAnalysis.analyzeAudioFrameTick settings dataArray currentVolume).2 = true
       then settings.audioSpeedMultiplier else 1) ∧
    (AudioAnalysis.analyzeAudioFrameTick settings dataArray currentVolume).1.scaleMultiplier =
      (if settings.audioResponsive = true ∧
          (AudioAnalysis.analyzeAudioFrameTick settings dataArray currentVolume).2 = true
       then 1 + settings.audioScaleBoost / 100 else 1) := by
  have hiff :
      AudioAnalysis.peakScan settings.audioBeatThreshold
          (AudioAnalysis.volumeMultiplierOf currentVolume) dataArray 0 >
        settings.audioBeatThreshold ↔
      AudioAnalysis.peakAmplitude (AudioAnalysis.volumeMultiplierOf currentVolume) dataArray >
        settings.audioBeatThreshold := by
    rw [AudioAnalysis.peakScan_gt_iff, AudioAnalysis.peakAmplitude_gt_iff]
  refine ⟨?_, ?_, ?_, ?_⟩
  · intro h
    simp only [AudioAnalysis.analyzeAudioFrameTick, decide_eq_false_iff_not]
    rw [hiff, h]
    exact lt_irrefl _
  · intro h
    simp only [AudioAnalysis.analyzeAudioFrameTick, decide_eq_true_eq]
    exact hiff.mpr h
  · simp only [AudioAnalysis.analyzeAudioFrameTick, AudioAnalysis.ite_bool_and]
  · simp only [AudioAnalysis.analyzeAudioFrameTick, AudioAnalysis.ite_bool_and]

def c5Settings : GradientSettings :=
  { DEFAULT_GRADIENT_SETTINGS with audioBeatThreshold := 1/2 }

/-- Witness for C5 at a concrete tick: one byte `192` at volume `1` has peak
amplitude exactly `1/2`; with the threshold set to `1/2` it is not a beat. -/
theorem c5_witness :
    AudioAnalysis.peakAmplitude (AudioAnalysis.volumeMultiplierOf 1) [192] =
        c5Settings.audioBeatThreshold ∧
    (AudioAnalysis.analyzeAudioFrameTick c5Settings [192] 1).2 = false :=
  ⟨by norm_num [AudioAnalysis.peakAmplitude, AudioAnalysis.sampleAmplitude,
      AudioAnalysis.volumeMultiplierOf, AudioAnalysis.MIN_VOLUME_FOR_ANALYSIS, c5Settings,
      DEFAULT_GRADIENT_SETTINGS],
   (c5_beat_classification c5Settings [192] 1).1
    (by norm_num [AudioAnalysis.peakAmplitude, AudioAnalysis.sampleAmplitude,
      AudioAnalysis.volumeMultiplierOf, AudioAnalysis.MIN_VOLUME_FOR_ANALYSIS, c5Settings,
      DEFAULT_GRADIENT_SETTINGS])⟩

/-- C6: with remember-per-item on and the saved-colors path not skipped, when
a fresh extraction and a saved record both exist the saved colors are used iff
they are non-empty and (manually modified or boosting disabled); in all other
cases the freshly extracted colors are used. -/
theorem c6_saved_colors_policy (settings : GradientSettings) (extracted : List String)
    (d : Storage.AlbumData) (hremember : settings.rememberAlbumSettings = true) :
    GradientController.chooseColorsToUse settings false extracted (some d) =
      (if d.colors ≠ [] ∧ (d.colorsManuallyModified = true ∨ settings.boostDullColors = false)
       then d.colors else extracted) := by
  simp only [GradientController.chooseColorsToUse, hremember, Bool.not_false, Bool.and_self]
  by_cases h1 : d.colors = []
  · simp [h1]
  · by_cases h2 : d.colorsManuallyModified
    · simp [h1, h2, List.isEmpty_iff]
    · by_cases h3 : settings.boostDullColors
      · simp [h1, h2, h3, List.isEmpty_iff]
      · simp [h1, h2, h3, List.isEmpty_iff]

def c6Settings : GradientSettings :=
  { DEFAULT_GRADIENT_SETTINGS with rememberAlbumSettings := true, boostDullColors := false }

/-- Witness for C6: boost disabled, a non-empty non-manually-modified saved
record — the saved colors win over the fresh extraction. -/
theorem c6_witness :
    c6Settings.rememberAlbumSettings = true ∧
    GradientController.chooseColorsToUse c6Settings false ["hsl(1, 2%, 3%)"]
        (some ⟨["hsl(9, 9%, 9%)"], false, 7⟩) = ["hsl(9, 9%, 9%)"] :=
  ⟨rfl,
   (c6_saved_colors_policy c6Settings ["hsl(1, 2%, 3%)"] ⟨["hsl(9, 9%, 9%)"], false, 7⟩
      rfl).trans (if_pos ⟨by simp, Or.inr rfl⟩)⟩

/-- C8: two debounced save calls within the 1-second window produce exactly
one persisted write, carrying the second call's values; the first call's
pending timer is cancelled and replaced, never queued. -/
theorem c8_debounced_save (st0 : GradientController.DebounceState) (t1 t2 T : ℕ)
    (u1 u2 : String) (c1 c2 : List String) (m1 m2 : Bool)
    (hpend : st0.albumSaveDebounceTimer = none) (hkey : u1 = u2) (horder : t1 ≤ t2)
    (hwin : t2 < t1 + 1000) (hfire : t2 + 1000 ≤ T) :
    GradientController.fireDueTimer T
        (GradientController.debouncedSaveAlbumColors t2 u2 c2 m2
          (GradientController.fireDueTimer t2
            (GradientController.debouncedSaveAlbumColors t1 u1 c1 m1 st0))) =
      { albumSaveDebounceTimer := none,
        savedWrites := st0.savedWrites ++ [(u2, c2, m2)] } := by
  have hinner : GradientController.fireDueTimer t2
      (GradientController.debouncedSaveAlbumColors t1 u1 c1 m1 st0) =
      GradientController.debouncedSaveAlbumColors t1 u1 c1 m1 st0 := by
    simp only [GradientController.debouncedSaveAlbumColors, GradientController.fireDueTimer]
    rw [if_neg (by omega)]
  rw [hinner]
  simp only [GradientController.debouncedSaveAlbumColors, GradientController.fireDueTimer]
  rw [if_pos hfire]

/-- Witness for C8: calls at 0 ms and 500 ms for the same key, timer fired at
1500 ms — one write, carrying the second call's values. -/
theorem c8_witness :
    (GradientController.DebounceState.mk none []).albumSaveDebounceTimer = none ∧
    GradientController.fireDueTimer 1500
        (GradientController.debouncedSaveAlbumColors 500 "k" ["b"] true
          (GradientController.fireDueTimer 500
            (GradientController.debouncedSaveAlbumColors 0 "k" ["a"] false ⟨none, []⟩))) =
      { albumSaveDebounceTimer := none, savedWrites := [("k", ["b"], true)] } :=
  ⟨rfl, c8_debounced_save ⟨none, []⟩ 0 500 1500 "k" "k" ["a"] ["b"] false true rfl rfl
    (by omega) (by omega) (by omega)⟩

/-- C10: a successful load of an existing album record returns the record and
writes it back with `lastAccessed` set to the current time, its colors and
manually-modified flag unchanged (an LRU touch on read). -/
theorem c10_load_touches_lastAccessed (now : ℕ) (store : Storage.AlbumSettings) (url : String)
    (d : Storage.AlbumData)
    (hfound : Storage.lookupKey store (Storage.generateAlbumKey url) = some d) :
    Storage.loadAlbumSettings now (some store) url =
      (some { d with lastAccessed := now },
       some (Storage.setEntry store (Storage.generateAlbumKey url)
          { d with lastAccessed := now })) ∧
    Storage.lookupKey
        (Storage.setEntry store (Storage.generateAlbumKey url) { d with lastAccessed := now })
        (Storage.generateAlbumKey url) =
      some { colors := d.colors, colorsManuallyModified := d.colorsManuallyModified,
             lastAccessed := now } := by
  constructor
  · simp only [Storage.loadAlbumSettings, hfound]
  · exact Storage.lookupKey_setEntry_self store (Storage.generateAlbumKey url) _

/-- Witness for C10 at a concrete store: the record under key `"art"` (from
URL `"art?w=64"`) is written back with `lastAccessed` updated to 99, colors
and flag intact. -/
theorem c10_witness :
    Storage.lookupKey [("art", ⟨["hsl(1, 2%, 3%)"], true, 5⟩)]
        (Storage.generateAlbumKey "art?w=64") = some ⟨["hsl(1, 2%, 3%)"], true, 5⟩ ∧
    Storage.lookupKey
        (Storage.setEntry [("art", ⟨["hsl(1, 2%, 3%)"], true, 5⟩)]
          (Storage.generateAlbumKey "art?w=64") ⟨["hsl(1, 2%, 3%)"], true, 99⟩)
        (Storage.generateAlbumKey "art?w=64") =
      some ⟨["hsl(1, 2%, 3%)"], true, 99⟩ :=
  ⟨by decide,
   (c10_load_touches_lastAccessed 99 [("art", ⟨["hsl(1, 2%, 3%)"], true, 5⟩)] "art?w=64"
      ⟨["hsl(1, 2%, 3%)"], true, 5⟩ (by decide)).2⟩

namespace Storage

theorem setEntry_of_lookup_none (m : AlbumSettings) (k : String) (v : AlbumData)
    (h : lookupKey m k = none) : setEntry m k v = m ++ [(k, v)] := by
  unfold setEntry
  rw [if_neg (by simp [h])]

theorem length_setEntry_of_isSome (m : AlbumSettings) (k : String) (v : AlbumData)
    (h : (lookupKey m k).isSome) : (setEntry m k v).length = m.length := by
  unfold setEntry
  rw [if_pos h, List.length_map]

theorem evictOldest_spec (m : AlbumSettings)
    (hlen : m.length = MAX_STORED_ALBUMS + 1)
    (hdist : (m.map (fun e => e.2.lastAccessed)).Nodup) :
    (evictOldestAlbums m).length = MAX_STORED_ALBUMS ∧
    (∀ e ∈ m, (e ∈ evictOldestAlbums m ↔ ∃ e' ∈ m, e'.2.lastAccessed < e.2.lastAccessed)) ∧
    (∀ e ∈ evictOldestAlbums m, e ∈ m) := by
  have hperm : (List.insertionSort accessLE m).Perm m := List.perm_insertionSort accessLE m
  have hsortlen : (List.insertionSort accessLE m).length = MAX_STORED_ALBUMS + 1 := by
    rw [hperm.length_eq, hlen]
  have hsorted : List.Sorted accessLE (List.insertionSort accessLE m) :=
    List.sorted_insertionSort accessLE m
  have hnodup : m.Nodup := List.Nodup.of_map _ hdist
  have hsortnodup : (List.insertionSort accessLE m).Nodup := hperm.nodup_iff.mpr hnodup
  have hinj := List.inj_on_of_nodup_map hdist
  have heq : evictOldestAlbums m = (List.insertionSort accessLE m).drop 1 := by
    simp only [evictOldestAlbums]
    rw [if_neg (by omega), hsortlen]
    norm_num
  obtain ⟨hd, tl, hs⟩ : ∃ hd tl, List.insertionSort accessLE m = hd :: tl := by
    cases hsort : List.insertionSort accessLE m with
    | nil => rw [hsort] at hsortlen; simp at hsortlen
    | cons hd tl => exact ⟨hd, tl, rfl⟩
  rw [hs] at heq hsortlen hsorted hsortnodup hperm
  have hmem : ∀ x, x ∈ m ↔ x ∈ hd :: tl := fun x => (hperm.mem_iff).symm
  have hmin : ∀ x ∈ tl, accessLE hd x := (List.sorted_cons.mp hsorted).1
  have hhd : hd ∉ tl := (List.nodup_cons.mp hsortnodup).1
  have hdm : hd ∈ m := (hmem hd).mpr (List.mem_cons_self hd tl)
  simp only [heq, List.drop_one, List.tail_cons]
  refine ⟨by simpa using hsortlen, ?_, ?_⟩
  · intro e hem
    constructor
    · intro het
      refine ⟨hd, hdm, ?_⟩
      have hne : hd ≠ e := fun h => hhd (h ▸ het)
      have hle : hd.2.lastAccessed ≤ e.2.lastAccessed := hmin e het
      have hnea : hd.2.lastAccessed ≠ e.2.lastAccessed := fun h =>
        hne (hinj hdm hem h)
      exact lt_of_le_of_ne hle hnea
    · rintro ⟨e', hem2, hlt⟩
      rcases List.mem_cons.mp ((hmem e).mp hem) with he | he
      · exfalso
        rcases List.mem_cons.mp ((hmem e').mp hem2) with hh | hh
        · rw [he, hh] at hlt
          exact lt_irrefl _ hlt
        · have := hmin e' hh
          rw [he] at hlt
          exact absurd hlt (not_lt.mpr this)
      · exact he
  · intro e het
    exact (hmem e).mpr (List.mem_cons_of_mem hd het)

end Storage

namespace Storage

theorem saveAlbumColors_fresh_eq (now : ℕ) (store : AlbumSettings) (url : String)
    (colors : List String) (mm : Bool)
    (hfresh : lookupKey store (generateAlbumKey url) = none) :
    saveAlbumColors now store url colors mm =
      evictOldestAlbums (store ++ [(generateAlbumKey url,
        ⟨colors, mm, now⟩)]) := by
  simp only [saveAlbumColors]
  rw [hfresh]
  simp only [Option.map_none', Option.getD_none, Bool.or_false]
  rw [setEntry_of_lookup_none _ _ _ hfresh]

theorem saveAlbumColors_flagged_eq (now : ℕ) (store : AlbumSettings) (url : String)
    (colors : List String) (mm : Bool) (d : AlbumData)
    (hlen : store.length ≤ MAX_STORED_ALBUMS)
    (hsaved : lookupKey store (generateAlbumKey url) = some d)
    (hflag : d.colorsManuallyModified = true) :
    saveAlbumColors now store url colors mm =
      setEntry store (generateAlbumKey url) ⟨colors, true, now⟩ := by
  simp only [saveAlbumColors]
  rw [hsaved]
  simp only [Option.map_some', Option.getD_some, hflag, Bool.or_true]
  simp only [evictOldestAlbums]
  rw [if_pos]
  rw [length_setEntry_of_isSome _ _ _ (by simp [hsaved])]
  exact hlen

end Storage

/-- C7: saving one more record under a fresh key into a store holding exactly
`MAX_STORED_ALBUMS` (= 50) records leaves exactly 50 records, and the record
dropped is exactly the one whose `lastAccessed` is smallest: a record of the
updated map survives iff some other record has a strictly smaller
`lastAccessed` (with all `lastAccessed` values distinct). -/
theorem c7_eviction (now : ℕ) (store : Storage.AlbumSettings) (url : String)
    (colors : List String) (mm : Bool)
    (hlen : store.length = Storage.MAX_STORED_ALBUMS)
    (hfresh : Storage.lookupKey store (Storage.generateAlbumKey url) = none)
    (hdist : ((store ++ [(Storage.generateAlbumKey url,
        (⟨colors, mm, now⟩ : Storage.AlbumData))]).map
        (fun e => e.2.lastAccessed)).Nodup) :
    (Storage.saveAlbumColors now store url colors mm).length = Storage.MAX_STORED_ALBUMS ∧
    (∀ e ∈ store ++ [(Storage.generateAlbumKey url, (⟨colors, mm, now⟩ : Storage.AlbumData))],
      (e ∈ Storage.saveAlbumColors now store url colors mm ↔
        ∃ e2 ∈ store ++ [(Storage.generateAlbumKey url,
            (⟨colors, mm, now⟩ : Storage.AlbumData))],
          e2.2.lastAccessed < e.2.lastAccessed)) ∧
    (∀ e ∈ Storage.saveAlbumColors now store url colors mm,
      e ∈ store ++ [(Storage.generateAlbumKey url,
        (⟨colors, mm, now⟩ : Storage.AlbumData))]) := by
  rw [Storage.saveAlbumColors_fresh_eq now store url colors mm hfresh]
  exact Storage.evictOldest_spec _ (by simp [hlen]) hdist

/-- The 50-record store used in the C7 witness: keys `"0"`, …, `"49"` with
`lastAccessed` values 1, …, 50. -/
def c7Store : Storage.AlbumSettings :=
  (List.range 50).map (fun i => (toString i, ⟨[], false, i + 1⟩))

/-- Witness for C7: inserting a 51st record (fresh key `"newalbum"`,
`lastAccessed` 1000) into `c7Store` leaves exactly 50 records. -/
theorem c7_witness :
    c7Store.length = Storage.MAX_STORED_ALBUMS ∧
    Storage.lookupKey c7Store (Storage.generateAlbumKey "newalbum") = none ∧
    ((c7Store ++ [(Storage.generateAlbumKey "newalbum",
        (⟨["hsl(1, 2%, 3%)"], false, 1000⟩ : Storage.AlbumData))]).map
        (fun e => e.2.lastAccessed)).Nodup ∧
    (Storage.saveAlbumColors 1000 c7Store "newalbum" ["hsl(1, 2%, 3%)"] false).length =
      Storage.MAX_STORED_ALBUMS :=
  ⟨by decide, by decide, by decide,
   (c7_eviction 1000 c7Store "newalbum" ["hsl(1, 2%, 3%)"] false (by decide) (by decide)
      (by decide)).1⟩

namespace Storage

theorem foldl_saves_keeps_flag (url : String) (saves : List (ℕ × List String × Bool)) :
    ∀ (store : AlbumSettings) (d : AlbumData),
      store.length ≤ MAX_STORED_ALBUMS →
      lookupKey store (generateAlbumKey url) = some d →
      d.colorsManuallyModified = true →
      ∃ d2, lookupKey
          (saves.foldl (fun s a => saveAlbumColors a.1 s url a.2.1 a.2.2) store)
          (generateAlbumKey url) = some d2 ∧ d2.colorsManuallyModified = true := by
  induction saves with
  | nil => exact fun store d _ hsaved hflag => ⟨d, hsaved, hflag⟩
  | cons a rest ih =>
    intro store d hlen hsaved hflag
    simp only [List.foldl_cons]
    rw [saveAlbumColors_flagged_eq a.1 store url a.2.1 a.2.2 d hlen hsaved hflag]
    exact ih _ ⟨a.2.1, true, a.1⟩
      (by rw [length_setEntry_of_isSome _ _ _ (by simp [hsaved])]; exact hlen)
      (lookupKey_setEntry_self _ _ _) rfl

end Storage

/-- C9: on a store within its bound, once the record under a key is stored
with the manually-modified flag `true`, any sequence of further `save` calls
on that same key — with any flag arguments — leaves a stored record whose
flag is still `true`; the explicit clear-all reset removes the store
entirely, after which a load finds nothing. -/
theorem c9_manually_modified_monotone (url : String)
    (saves : List (ℕ × List String × Bool)) (store : Storage.AlbumSettings)
    (d : Storage.AlbumData)
    (hlen : store.length ≤ Storage.MAX_STORED_ALBUMS)
    (hsaved : Storage.lookupKey store (Storage.generateAlbumKey url) = some d)
    (hflag : d.colorsManuallyModified = true) :
    (∃ d2, Storage.lookupKey
        (saves.foldl (fun s a => Storage.saveAlbumColors a.1 s url a.2.1 a.2.2) store)
        (Storage.generateAlbumKey url) = some d2 ∧ d2.colorsManuallyModified = true) ∧
    (Storage.loadAlbumSettings 0 Storage.clearAllAlbumSettings url).1 = none :=
  ⟨Storage.foldl_saves_keeps_flag url saves store d hlen hsaved hflag, rfl⟩

/-- Witness for C9: a one-record store with the flag already `true`; two
further saves with flag `false` still leave the stored flag `true`. -/
theorem c9_witness :
    ([("k", (⟨["hsl(1, 2%, 3%)"], true, 1⟩ : Storage.AlbumData))] :
        Storage.AlbumSettings).length ≤ Storage.MAX_STORED_ALBUMS ∧
    Storage.lookupKey [("k", (⟨["hsl(1, 2%, 3%)"], true, 1⟩ : Storage.AlbumData))]
        (Storage.generateAlbumKey "k") =
      some (⟨["hsl(1, 2%, 3%)"], true, 1⟩ : Storage.AlbumData) ∧
    (∃ d2, Storage.lookupKey
        (([(2, ["hsl(4, 4%, 4%)"], false), (3, [], false)] :
            List (ℕ × List String × Bool)).foldl
          (fun s a => Storage.saveAlbumColors a.1 s "k" a.2.1 a.2.2)
          [("k", (⟨["hsl(1, 2%, 3%)"], true, 1⟩ : Storage.AlbumData))])
        (Storage.generateAlbumKey "k") = some d2 ∧ d2.colorsManuallyModified = true) :=
  ⟨by decide, by decide,
   (c9_manually_modified_monotone "k" [(2, ["hsl(4, 4%, 4%)"], false), (3, [], false)]
      [("k", ⟨["hsl(1, 2%, 3%)"], true, 1⟩)] ⟨["hsl(1, 2%, 3%)"], true, 1⟩
      (by decide) (by decide) rfl).1⟩

namespace Registry

theorem findMount_some (r : Registry) (k : String) (h : ℕ) (hf : r.findMount k = some h) :
    ∃ e ∈ r.mounts, e.1 = k ∧ e.2 = h := by
  unfold findMount at hf
  cases hfind : r.mounts.find? (fun e => decide (e.1 = k)) with
  | none => rw [hfind] at hf; exact absurd hf (by simp)
  | some e =>
    rw [hfind] at hf
    have hmem := List.mem_of_find?_eq_some hfind
    have hkey := List.find?_some hfind
    simp only [decide_eq_true_eq] at hkey
    simp only [Option.some.injEq] at hf
    exact ⟨e, hmem, hkey, hf⟩

theorem findMount_none (r : Registry) (k : String) (hf : r.findMount k = none) :
    ∀ e ∈ r.mounts, e.1 ≠ k := by
  unfold findMount at hf
  cases hfind : r.mounts.find? (fun e => decide (e.1 = k)) with
  | some e => rw [hfind] at hf; exact absurd hf (by simp)
  | none =>
    intro e he
    have := List.find?_eq_none.mp hfind e he
    simpa using this

theorem destroyLoc_mounts (loc : String) (r : Registry) :
    (destroyLoc loc r).mounts = r.mounts.filter (fun e => decide (e.1 ≠ loc)) := by
  unfold destroyLoc
  cases r.findMount loc <;> rfl

theorem mounts_keys_nodup_filter (r : Registry) (p : String × ℕ → Bool)
    (h1 : (r.mounts.map Prod.fst).Nodup) :
    ((r.mounts.filter p).map Prod.fst).Nodup :=
  h1.sublist ((List.filter_sublist r.mounts).map Prod.fst)

theorem WF_destroyLoc (loc : String) (r : Registry) (hwf : r.WF) :
    (destroyLoc loc r).WF := by
  obtain ⟨h1, h2, h3, h4, h5, h6⟩ := hwf
  have hfkeys := mounts_keys_nodup_filter r (fun e => decide (e.1 ≠ loc)) h1
  have hkeyinj := List.inj_on_of_nodup_map h1
  have hidinj := List.inj_on_of_nodup_map h2
  unfold destroyLoc
  cases hfm : r.findMount loc with
  | none =>
    have hno := findMount_none r loc hfm
    refine ⟨hfkeys, h2, h3, h4, ?_, ?_⟩
    · intro e he
      rcases h5 e he with hd | hm
      · exact Or.inl hd
      · exact Or.inr (List.mem_filter.mpr ⟨hm, by simpa using hno e hm⟩)
    · intro e he
      exact h6 e (List.mem_filter.mp he).1
  | some hdl =>
    obtain ⟨ef, hefm, hefk, hefh⟩ := findMount_some r loc hdl hfm
    have hefa : ef ∈ r.allocLog := (h6 ef hefm).1
    refine ⟨hfkeys, h2, h3, ?_, ?_, ?_⟩
    · intro h hh
      rcases List.mem_append.mp hh with hh | hh
      · exact h4 h hh
      · simp only [List.mem_singleton] at hh
        subst hh
        exact hefh ▸ h3 ef hefa
    · intro e he
      rcases h5 e he with hd | hm
      · exact Or.inl (List.mem_append_left _ hd)
      · by_cases hek : e.1 = loc
        · have : e = ef := hkeyinj hm hefm (hek.trans hefk.symm)
          subst this
          exact Or.inl (List.mem_append_right _ (by simp [hefh]))
        · exact Or.inr (List.mem_filter.mpr ⟨hm, by simpa using hek⟩)
    · intro e he
      have hem := (List.mem_filter.mp he).1
      have hekey : e.1 ≠ loc := by simpa using (List.mem_filter.mp he).2
      refine ⟨(h6 e hem).1, ?_⟩
      intro hd
      rcases List.mem_append.mp hd with hd | hd
      · exact (h6 e hem).2 hd
      · simp only [List.mem_singleton] at hd
        have hne : e ≠ ef := fun hc => hekey (hc ▸ hefk)
        exact hne (hidinj (h6 e hem).1 hefa (hd.trans hefh.symm))

theorem foldl_destroy_mounts (ks : List String) :
    ∀ r : Registry,
      (ks.foldl (fun acc loc => destroyLoc loc acc) r).mounts =
        r.mounts.filter (fun e => decide (e.1 ∉ ks)) := by
  induction ks with
  | nil =>
    intro r
    simp
  | cons k ks ih =>
    intro r
    rw [List.foldl_cons, ih, destroyLoc_mounts, List.filter_filter]
    apply List.filter_congr
    intro e _
    by_cases h1 : e.1 = k <;> by_cases h2 : e.1 ∈ ks <;>
      simp [h1, h2]

theorem WF_foldl_destroy (ks : List String) :
    ∀ r : Registry, r.WF → (ks.foldl (fun acc loc => destroyLoc loc acc) r).WF := by
  induction ks with
  | nil => intro r hwf; exact hwf
  | cons k ks ih =>
    intro r hwf
    rw [List.foldl_cons]
    exact ih _ (WF_destroyLoc k r hwf)

theorem destroyAll_mounts (r : Registry) : (destroyAll r).mounts = [] := by
  unfold destroyAll
  rw [foldl_destroy_mounts]
  rw [List.filter_eq_nil_iff]
  intro e he
  simp only [decide_eq_true_eq, Decidable.not_not]
  exact List.mem_map_of_mem Prod.fst he

theorem WF_destroyAll (r : Registry) (hwf : r.WF) : (destroyAll r).WF :=
  WF_foldl_destroy _ r hwf

theorem liveFor_eq_nil_of_mounts_nil (r : Registry) (hwf : r.WF) (hm : r.mounts = [])
    (k : String) : r.liveFor k = [] := by
  obtain ⟨_, _, _, _, h5, _⟩ := hwf
  unfold liveFor
  rw [List.filter_eq_nil_iff.mpr, List.map_nil]
  intro e he
  simp only [decide_eq_true_eq, not_and]
  intro _
  rcases h5 e he with hd | hmem
  · simpa using hd
  · rw [hm] at hmem
    exact absurd hmem (List.not_mem_nil e)

theorem liveFor_destroyAll (r : Registry) (hwf : r.WF) (k : String) :
    (destroyAll r).liveFor k = [] :=
  liveFor_eq_nil_of_mounts_nil _ (WF_destroyAll r hwf) (destroyAll_mounts r) k

end Registry

/-- C1: whenever a settings update transitions `enabled` from `true` to
`false`, `updateGradientSettings` leaves zero live rendering handles in both
managers — every shader and kawarp handle has been destroyed — and audio
analysis is stopped, for every prior state and every environment. -/
theorem c1_disable_destroys_all_handles (env : GradientController.ControllerEnv)
    (st : GradientController.ControllerState) (settings : GradientSettings)
    (hws : st.shaders.WF) (hwk : st.kawarps.WF)
    (hprev : st.gradientSettings.enabled = true) (hnext : settings.enabled = false) :
    (∀ k, (GradientController.updateGradientSettings env st settings).shaders.liveFor k = []) ∧
    (∀ k, (GradientController.updateGradientSettings env st settings).kawarps.liveFor k = []) ∧
    (GradientController.updateGradientSettings env st settings).audioRafId = none := by
  simp only [GradientController.updateGradientSettings]
  rw [if_pos (by rw [hprev, hnext]; simp), if_pos hnext]
  simp only [GradientController.stopAudioAnalysis]
  exact ⟨fun k => Registry.liveFor_destroyAll _ hws k,
    fun k => Registry.liveFor_destroyAll _ hwk k, trivial⟩

/-- A controller state with one live shader handle, used by the C1 witness. -/
def c1State : GradientController.ControllerState :=
  { gradientSettings := DEFAULT_GRADIENT_SETTINGS,
    shaders := ⟨[("player", 0)], [("player", 0)], [], 1⟩,
    kawarps := Registry.empty,
    audioRafId := some 0 }

def c1Env : GradientController.ControllerEnv := ⟨id, id, id, id, id⟩

/-- Witness for C1: disabling from `c1State` (one live shader handle, audio
running) leaves no live handle anywhere and audio stopped. -/
theorem c1_witness :
    c1State.shaders.WF ∧ c1State.kawarps.WF ∧
    c1State.gradientSettings.enabled = true ∧
    ({ DEFAULT_GRADIENT_SETTINGS with enabled := false } : GradientSettings).enabled = false ∧
    (GradientController.updateGradientSettings c1Env c1State
        { DEFAULT_GRADIENT_SETTINGS with enabled := false }).shaders.liveFor "player" = [] ∧
    (GradientController.updateGradientSettings c1Env c1State
        { DEFAULT_GRADIENT_SETTINGS with enabled := false }).audioRafId = none :=
  ⟨by decide, by decide, rfl, rfl,
   (c1_disable_destroys_all_handles c1Env c1State _ (by decide) (by decide) rfl rfl).1 "player",
   (c1_disable_destroys_all_handles c1Env c1State _ (by decide) (by decide) rfl rfl).2.2⟩

theorem ShaderManager.waitForTargetReady_const_false (fuel i : ℕ) :
    ShaderManager.waitForTargetReady (fun _ => false) i fuel = none := by
  induction fuel generalizing i with
  | zero => rfl
  | succ n ih => simpa [ShaderManager.waitForTargetReady] using ih (i + 1)

theorem ShaderManager.waitForTargetReady_ne_some_false (hasContent : ℕ → Bool)
    (i fuel : ℕ) : ShaderManager.waitForTargetReady hasContent i fuel ≠ some false := by
  induction fuel generalizing i with
  | zero => exact fun h => Option.noConfusion h
  | succ n ih =>
    unfold ShaderManager.waitForTargetReady
    by_cases h : hasContent i
    · simp [h]
    · simpa [h] using ih (i + 1)

/-- C3 counterexample: the mesh `createShader` called with non-empty colors on
a target that never becomes ready never completes — its `waitForTargetReady`
has no timeout and re-polls forever, so `create` does not terminate and in
particular never returns `false` for this input, contradicting the claim that
the wait is bounded by a timeout for every input. -/
theorem c3_counterexample :
    ShaderManager.CreateNeverCompletes (fun _ => false) true ["hsl(1, 2%, 3%)"]
      "player-page" Registry.empty := by
  intro fuel
  unfold ShaderManager.createShader
  simp only [ShaderManager.waitForTargetReady_const_false, List.isEmpty_cons,
    Bool.false_eq_true, if_false]
  rfl

/-- C3 as amended: `createShader` returns `false` (a no-op) when the colors
list is empty; the kawarp `createKawarp`'s wait is bounded by its 5000 ms
timeout and `createKawarp` returns `false` whenever the target never becomes
ready within it; but the mesh `createShader`'s wait has no timeout — it polls
indefinitely and can never resolve `false`, so mesh `create` does not
terminate when the target never becomes structurally ready. -/
theorem c3_amended_create_termination :
    (∀ (hasContent : ℕ → Bool) (targetPresent : Bool) (targetSelector : String) (fuel : ℕ)
        (r : Registry),
      ShaderManager.createShader hasContent targetPresent [] targetSelector fuel r =
        (r, some false)) ∧
    (∀ (wait : KawarpManager.WaitEnv) (targetPresent : Bool) (targetSelector : String)
        (r : Registry), ¬ KawarpManager.EventuallyReady wait →
      (KawarpManager.createKawarp wait targetPresent targetSelector r).2 = false) ∧
    (∀ wait : KawarpManager.WaitEnv, ¬ KawarpManager.EventuallyReady wait →
      KawarpManager.waitForTargetReady wait = false) ∧
    (∀ (hasContent : ℕ → Bool) (i fuel : ℕ),
      ShaderManager.waitForTargetReady hasContent i fuel ≠ some false) := by
  have hwait : ∀ wait : KawarpManager.WaitEnv, ¬ KawarpManager.EventuallyReady wait →
      KawarpManager.waitForTargetReady wait = false := by
    intro wait h
    unfold KawarpManager.EventuallyReady at h
    push_neg at h
    unfold KawarpManager.waitForTargetReady
    rcases hi : wait.initialHasContent with _ | _
    · rcases ha : wait.appElementPresent with _ | _
      · simp
      · have := h.2 ha
        simp [this]
    · exact absurd hi h.1
  refine ⟨?_, ?_, hwait, ShaderManager.waitForTargetReady_ne_some_false⟩
  · intro hasContent targetPresent targetSelector fuel r
    unfold ShaderManager.createShader
    simp
  · intro wait targetPresent targetSelector r h
    unfold KawarpManager.createKawarp
    simp only [hwait wait h, Bool.not_false, if_true]
    split <;> rfl

/-- Witness for C3 (amended): a concrete never-ready kawarp wait environment —
`createKawarp` returns `false` there. -/
theorem c3_witness :
    ¬ KawarpManager.EventuallyReady ⟨false, true, false⟩ ∧
    (KawarpManager.createKawarp ⟨false, true, false⟩ true "player-page"
        Registry.empty).2 = false :=
  ⟨by decide,
   c3_amended_create_termination.2.1 ⟨false, true, false⟩ true "player-page" Registry.empty
    (by decide)⟩

/-- C2 (code bug): three sequential, all-successful `createShader` calls on
the same key "player" (target always ready, non-empty colors) leave TWO live
— allocated and never disposed — handles for that key, and likewise for
`createKawarp`.  The second create destroys the first handle but
`destroyShader` deletes the map entry out from under the captured `state`
object, so the second handle lives in a detached object the third create
cannot see: the third create finds no mount, skips the destroy, and allocates
a third handle while the second is still live.  This refutes the claim's "no
second handle for the same key is ever left live" on the code as written. -/
theorem c2_repeated_create_leaks_second_handle :
    ((runEffectOps
        [EffectOp.createShader (fun _ => true) true ["hsl(1, 2%, 3%)"] "player-page" 1,
         EffectOp.createShader (fun _ => true) true ["hsl(1, 2%, 3%)"] "player-page" 1,
         EffectOp.createShader (fun _ => true) true ["hsl(1, 2%, 3%)"] "player-page" 1]
        initialEffectState).shaders.liveFor "player").length = 2 ∧
    ((runEffectOps
        [EffectOp.createKawarp ⟨true, true, true⟩ true "player-page",
         EffectOp.createKawarp ⟨true, true, true⟩ true "player-page",
         EffectOp.createKawarp ⟨true, true, true⟩ true "player-page"]
        initialEffectState).kawarps.liveFor "player").length = 2 := by
  constructor <;> decide
